import Mathlib

/-!
Verification development for the `netscan` network integrity watchdog
(`src/netscan/watchdog.py`).

The watchdog is embedded shallowly: each Python check function becomes a
Lean function over explicit inputs standing for the I/O it performs
(snapshot JSON documents become structures, shell-command outputs become
`String` parameters, the `main` post-check pipeline becomes a pure state
transformer).  Conventions used throughout:

* Python dicts with string keys are modelled as association lists
  (`List (String × _)`), looked up with `alookup` (first match wins, as a
  Python dict has unique keys; theorems that depend on dict-key uniqueness
  carry an explicit `Nodup` hypothesis on the key list).
* JSON field access `h.get(k, default)` is modelled by total structure
  fields holding the value the Python code would see (the scanner pipeline
  always emits these keys; where a default matters behaviourally it is
  noted at the definition).
* Numeric scores are modelled as `Int` (the comparisons in the source are
  order comparisons against integer thresholds, which are order-isomorphic
  over any ordered field containing the integers).
* `alert_hash` md5-hashes the deduplication key `category|host|title` and
  truncates to 12 hex digits; the hash is injective on the keys any run
  produces for all practical purposes, so the embedding keys the cooldown
  map by the key string itself (`alertKey`).
* ISO-8601 timestamps are compared by Python string comparison in the
  source (`filter_cooldown`, state GC); the embedding keeps them as
  `String`, compared with `pyStrLt`, the code-point lexicographic order
  Python uses on `str`.
-/

/-- Lexicographic comparison of code-point lists: Python's `str` `<`
restricted to the two lists of characters. -/
def charsLt : List Char → List Char → Bool
  | _, [] => false
  | [], _ :: _ => true
  | a :: as, b :: bs => decide (a < b) || (a == b && charsLt as bs)

/-- Python string comparison `s < t` (lexicographic by code point). -/
def pyStrLt (s t : String) : Bool :=
  charsLt s.data t.data

/-- An alert record as built by every `check_*` function in
`watchdog.py`: `tier`, `category`, `title`, `detail`, `host`. -/
structure Alert where
  tier : String
  category : String
  title : String
  detail : String
  host : String
deriving Repr, DecidableEq, Inhabited

/-- The deduplication key of `alert_hash` (watchdog.py lines 154-157):
`f"{alert['category']}|{alert.get('host','')}|{alert['title']}"`.
The md5 truncation applied on top is modelled as the identity (see the
file header). -/
def alertKey (a : Alert) : String :=
  a.category ++ "|" ++ a.host ++ "|" ++ a.title

/-- Association-list lookup, modelling Python dict lookup `m.get(k)`. -/
def alookup (m : List (String × String)) (k : String) : Option String :=
  match m with
  | [] => none
  | p :: rest => if p.1 = k then some p.2 else alookup rest k

/-- Python `m.get(k, "")`. -/
def alookupD (m : List (String × String)) (k : String) : String :=
  (alookup m k).getD ""

/-- `filter_cooldown` (watchdog.py lines 702-706): keep the alerts whose
recorded send timestamp (default `""` for an unseen key) is strictly below
the cutoff `(NOW - timedelta(hours=ALERT_COOLDOWN_HOURS)).isoformat()`.
The cutoff string is a parameter, standing for that datetime expression. -/
def filter_cooldown (alerts : List Alert) (sent : List (String × String))
    (cutoff : String) : List Alert :=
  alerts.filter (fun a => pyStrLt (alookupD sent (alertKey a)) cutoff)

theorem alookup_nil (k : String) : alookup [] k = none := rfl

theorem alookup_cons (k' v k : String) (rest : List (String × String)) :
    alookup ((k', v) :: rest) k = if k' = k then some v else alookup rest k := rfl

theorem mem_filter_cooldown (alerts : List Alert) (sent : List (String × String))
    (cutoff : String) (a : Alert) :
    a ∈ filter_cooldown alerts sent cutoff ↔
      a ∈ alerts ∧ pyStrLt (alookupD sent (alertKey a)) cutoff = true := by
  simp [filter_cooldown, List.mem_filter]

/-- C3: Cooldown idempotence at the level of `filter_cooldown`: an alert
whose key's recorded timestamp is at or after the cutoff (`NOW` minus the
24-hour window, so the timestamp is not below the cutoff) is removed from
the actionable set and produces no second outbound notification; an alert
whose recorded timestamp is strictly older than the cutoff passes the
filter and is actionable again. -/
theorem cooldown_idempotence (alerts : List Alert) (sent : List (String × String))
    (cutoff : String) (a : Alert) (hmem : a ∈ alerts) :
    (pyStrLt (alookupD sent (alertKey a)) cutoff = false →
      a ∉ filter_cooldown alerts sent cutoff) ∧
    (pyStrLt (alookupD sent (alertKey a)) cutoff = true →
      a ∈ filter_cooldown alerts sent cutoff) := by
  constructor
  · intro hge hmem'
    have h := ((mem_filter_cooldown alerts sent cutoff a).1 hmem').2
    rw [hge] at h
    exact Bool.false_ne_true h
  · intro hlt
    exact (mem_filter_cooldown alerts sent cutoff a).2 ⟨hmem, hlt⟩

/-- Witness for `cooldown_idempotence` at a concrete alert, state and
cutoff: the recently-sent alert is suppressed and the stale one passes. -/
theorem cooldown_idempotence_witness :
    ({ tier := "high", category := "cat", title := "t", detail := "", host := "1.2.3.4" } ∉
        filter_cooldown
          [{ tier := "high", category := "cat", title := "t", detail := "", host := "1.2.3.4" }]
          [("cat|1.2.3.4|t", "2025-01-02T00:00:00")] "2025-01-01T12:00:00") ∧
    ({ tier := "high", category := "cat", title := "t", detail := "", host := "1.2.3.4" } ∈
        filter_cooldown
          [{ tier := "high", category := "cat", title := "t", detail := "", host := "1.2.3.4" }]
          [("cat|1.2.3.4|t", "2024-12-30T00:00:00")] "2025-01-01T12:00:00") :=
  ⟨(cooldown_idempotence _ _ _ _ (by decide)).1 (by decide),
   (cooldown_idempotence _ _ _ _ (by decide)).2 (by decide)⟩

/-- The empty string (the `sent.get(key, "")` default of `filter_cooldown`)
sorts strictly before every nonempty string under the lexicographic order
Python uses on ISO timestamps. -/
theorem pyStrLt_empty (s : String) (h : s ≠ "") : pyStrLt "" s = true := by
  rcases s with ⟨data⟩
  cases data with
  | nil => exact absurd rfl h
  | cons c cs => rfl

/-- C10: `filter_cooldown` returns a subsequence of its input (it never
creates, reorders or modifies alerts), and any alert whose deduplication
key has no recorded send timestamp always survives the filter, because the
missing-key default `""` compares strictly below every nonempty cutoff
string. -/
theorem filter_cooldown_sublist_missing_key (alerts : List Alert)
    (sent : List (String × String)) (cutoff : String) (hc : cutoff ≠ "") :
    (filter_cooldown alerts sent cutoff).Sublist alerts ∧
    pyStrLt "" cutoff = true ∧
    (∀ a ∈ alerts, alookup sent (alertKey a) = none →
      a ∈ filter_cooldown alerts sent cutoff) := by
  refine ⟨List.filter_sublist alerts, pyStrLt_empty cutoff hc, ?_⟩
  intro a hmem hnone
  refine (mem_filter_cooldown alerts sent cutoff a).2 ⟨hmem, ?_⟩
  unfold alookupD
  rw [hnone]
  exact pyStrLt_empty cutoff hc

/-- Witness for `filter_cooldown_sublist_missing_key` at a concrete input:
an alert with no recorded send timestamp passes the filter. -/
theorem filter_cooldown_sublist_missing_key_witness :
    (filter_cooldown
        [{ tier := "high", category := "c", title := "t", detail := "", host := "h" }]
        [("other|key|x", "2025-01-01T00:00:00")] "2025-01-01T12:00:00").Sublist
      [{ tier := "high", category := "c", title := "t", detail := "", host := "h" }] ∧
    pyStrLt "" "2025-01-01T12:00:00" = true ∧
    { tier := "high", category := "c", title := "t", detail := "", host := "h" } ∈
      filter_cooldown
        [{ tier := "high", category := "c", title := "t", detail := "", host := "h" }]
        [("other|key|x", "2025-01-01T00:00:00")] "2025-01-01T12:00:00" :=
  have h := filter_cooldown_sublist_missing_key
    [{ tier := "high", category := "c", title := "t", detail := "", host := "h" }]
    [("other|key|x", "2025-01-01T00:00:00")] "2025-01-01T12:00:00" (by decide)
  ⟨h.1, h.2.1, h.2.2 _ (by decide) (by decide)⟩

/-- Python character slicing `s[:n]` (by code point). -/
def strTake (s : String) (n : Nat) : String :=
  ⟨s.data.take n⟩

/-- Python `sep.join(items)`. -/
def pyJoin (sep : String) : List String → String
  | [] => ""
  | [x] => x
  | x :: xs => x ++ sep ++ pyJoin sep xs

/-- One entry of a vulnerability-snapshot host's `findings` list.  `ftype`
is the JSON key `type`; `port` holds the f-string rendering of the JSON
`port` value, since `fkey` only ever uses it inside an f-string. -/
structure Finding where
  ftype : String
  port : String
  cve : String
  severity : String
  detail : String
deriving Repr, DecidableEq, Inhabited

/-- A vulnerability-snapshot host: `{name, findings, finding_count}`. -/
structure VulnHost where
  name : String
  findings : List Finding
  finding_count : Nat
deriving Repr, DecidableEq, Inhabited

/-- The vulnerability snapshot's `stats` object. -/
structure VulnStats where
  avg_risk_score : Int
  total_findings : Nat
deriving Repr, DecidableEq, Inhabited

/-- A vulnerability snapshot: `{hosts: {...}, stats: {...}}`. -/
structure VulnSnap where
  hosts : List (String × VulnHost)
  stats : VulnStats
deriving Repr, DecidableEq, Inhabited

/-- Generic association-list lookup for snapshot host maps. -/
def hlookup {α : Type} (m : List (String × α)) (k : String) : Option α :=
  match m with
  | [] => none
  | (k', v) :: rest => if k' = k then some v else hlookup rest k

/-- The finding-identity key of `check_vuln_deltas`
(`f"{f.get('type','')}|{f.get('port','')}|{f.get('cve','')}"`). -/
def fkey (f : Finding) : String :=
  f.ftype ++ "|" ++ f.port ++ "|" ++ f.cve

/-- The `new_findings` list of `check_vuln_deltas` (lines 365-373): for
each current host, the findings whose key does not occur in the same
host's previous findings, tagged with `(ip, name, finding)`. -/
def newFindingsOf (ch ph : List (String × VulnHost)) :
    List (String × String × Finding) :=
  ch.flatMap (fun ipv =>
    let prevKeys := ((hlookup ph ipv.1).getD default).findings.map fkey
    (ipv.2.findings.filter (fun f => !(prevKeys.contains (fkey f)))).map
      (fun f => (ipv.1, ipv.2.name, f)))

/-- The synthetic "all findings resolved" record for a host that fell out
of the vulnerability snapshot (lines 379-384). -/
def allResolvedFinding (fc : Nat) : Finding :=
  { ftype := "all_resolved", port := "", cve := "", severity := "info",
    detail := toString fc ++ " findings resolved (host clean)" }

/-- The `resolved` list of `check_vuln_deltas` (lines 374-384): previous
findings of still-present hosts whose key disappeared, plus one synthetic
record per host that left the snapshot while it had findings. -/
def resolvedOf (ch ph : List (String × VulnHost)) :
    List (String × String × Finding) :=
  (ch.flatMap (fun ipv =>
    let prevHost := (hlookup ph ipv.1).getD default
    let currKeys := ipv.2.findings.map fkey
    (prevHost.findings.filter (fun f => !(currKeys.contains (fkey f)))).map
      (fun f => (ipv.1, prevHost.name, f)))) ++
  (ph.filter (fun ipv => (hlookup ch ipv.1).isNone && decide (0 < ipv.2.finding_count))).map
    (fun ipv => (ipv.1, ipv.2.name, allResolvedFinding ipv.2.finding_count))

/-- The severity bucket `by_sev[sev]` (lines 387-391), in list order. -/
def bySev (nf : List (String × String × Finding)) (sev : String) :
    List (String × String × Finding) :=
  nf.filter (fun x => x.2.2.severity == sev)

/-- The per-finding `critical` alert of `check_vuln_deltas` (lines 393-399). -/
def vulnCritAlert (x : String × String × Finding) : Alert :=
  { tier := "critical", category := "vuln_new",
    title := "Critical vuln: " ++ x.2.2.ftype ++ " on " ++ x.2.1,
    detail := x.1 ++ " — " ++ strTake x.2.2.detail 100,
    host := x.1 }

/-- The per-finding `high` alert of `check_vuln_deltas` (lines 400-406). -/
def vulnHighAlert (x : String × String × Finding) : Alert :=
  { tier := "high", category := "vuln_new",
    title := "New high vuln: " ++ x.2.2.ftype ++ " on " ++ x.2.1,
    detail := x.1 ++ " — " ++ strTake x.2.2.detail 100,
    host := x.1 }

/-- The single aggregated `medium` alert of `check_vuln_deltas`
(lines 407-415), listing at most 5 example findings in its detail. -/
def vulnMediumAgg (med : List (String × String × Finding)) : Alert :=
  { tier := "medium", category := "vuln_new",
    title := toString med.length ++ " new medium vuln(s) on " ++
             toString (med.map (fun x => x.1)).dedup.length ++ " host(s)",
    detail := pyJoin "; " ((med.take 5).map (fun x => x.1 ++ ":" ++ x.2.2.ftype)),
    host := "" }

/-- The `high`-tier risk-movement alert (lines 421-427), emitted when
`curr_risk - prev_risk >= 10`. -/
def riskSpikeAlert (prevR currR : Int) : Alert :=
  { tier := "high", category := "risk_spike",
    title := "Risk spike: " ++ toString prevR ++ "→" ++ toString currR ++
             " (▲" ++ toString (currR - prevR) ++ ")",
    detail := "Network-wide average risk jumped significantly",
    host := "" }

/-- The `medium`-tier risk-movement alert (lines 428-434), emitted when
`5 <= curr_risk - prev_risk < 10`. -/
def riskIncreaseAlert (prevR currR : Int) : Alert :=
  { tier := "medium", category := "risk_increase",
    title := "Risk up: " ++ toString prevR ++ "→" ++ toString currR ++
             " (▲" ++ toString (currR - prevR) ++ ")",
    detail := "Network average risk increased",
    host := "" }

/-- The `stats` dict of `check_vuln_deltas`.  When the Python code returns
a partial dict (`{}` for no current snapshot, or the first-scan note) the
remaining fields keep their defaults. -/
structure VulnDeltaStats where
  note : String := ""
  new_total : Nat := 0
  new_critical : Nat := 0
  new_high : Nat := 0
  new_medium : Nat := 0
  resolved : Nat := 0
  curr_total : Nat := 0
  prev_total : Nat := 0
  risk_delta : Int := 0
  status : String := ""
deriving Repr, DecidableEq, Inhabited

/-- `check_vuln_deltas` (watchdog.py lines 348-448) over the two parsed
vulnerability snapshots.  `none` stands for a missing (or empty, hence
falsy) snapshot. -/
def check_vuln_deltas (curr prev : Option VulnSnap) :
    List Alert × VulnDeltaStats :=
  match curr with
  | none => ([], {})
  | some c =>
    match prev with
    | none => ([], { note := "first vuln scan, no comparison", status := "ok" })
    | some p =>
      let nf := newFindingsOf c.hosts p.hosts
      let res := resolvedOf c.hosts p.hosts
      let crit := bySev nf "critical"
      let high := bySev nf "high"
      let med := bySev nf "medium"
      let riskDelta := c.stats.avg_risk_score - p.stats.avg_risk_score
      let riskAlerts :=
        if 10 ≤ riskDelta then
          [riskSpikeAlert p.stats.avg_risk_score c.stats.avg_risk_score]
        else if 5 ≤ riskDelta then
          [riskIncreaseAlert p.stats.avg_risk_score c.stats.avg_risk_score]
        else []
      let alerts := crit.map vulnCritAlert ++ high.map vulnHighAlert ++
        (if med.isEmpty then [] else [vulnMediumAgg med]) ++ riskAlerts
      (alerts,
        { new_total := nf.length, new_critical := crit.length,
          new_high := high.length, new_medium := med.length,
          resolved := res.length, curr_total := c.stats.total_findings,
          prev_total := p.stats.total_findings, risk_delta := riskDelta,
          status := if !crit.isEmpty then "critical"
                    else if !high.isEmpty then "warning" else "ok" })

/-- An alert of one of the two risk-movement categories. -/
def isRiskMovement (a : Alert) : Bool :=
  a.category == "risk_spike" || a.category == "risk_increase"

theorem countP_map_true {α β : Type} (f : α → β) (p : β → Bool)
    (h : ∀ x, p (f x) = true) (l : List α) : (l.map f).countP p = l.length := by
  induction l with
  | nil => rfl
  | cons x xs ih => simp [List.countP_cons, h x, ih]

theorem countP_map_false {α β : Type} (f : α → β) (p : β → Bool)
    (h : ∀ x, p (f x) = false) (l : List α) : (l.map f).countP p = 0 := by
  induction l with
  | nil => rfl
  | cons x xs ih => simp [List.countP_cons, h x, ih]

theorem filter_map_false {α β : Type} (f : α → β) (p : β → Bool)
    (h : ∀ x, p (f x) = false) (l : List α) : (l.map f).filter p = [] := by
  induction l with
  | nil => rfl
  | cons x xs ih => simp [List.filter_cons, h x, ih]

theorem isRiskMovement_vulnCrit (x : String × String × Finding) :
    isRiskMovement (vulnCritAlert x) = false := rfl

theorem isRiskMovement_vulnHigh (x : String × String × Finding) :
    isRiskMovement (vulnHighAlert x) = false := rfl

theorem isRiskMovement_vulnMediumAgg (l : List (String × String × Finding)) :
    isRiskMovement (vulnMediumAgg l) = false := rfl

/-- C1 (amended): the risk-movement alerts of `check_vuln_deltas` are an
exact function of the *rise* of `stats.avg_risk_score`: a rise
(`curr - prev`) of at least 10 yields exactly one `high` alert, a rise of
at least 5 (but below 10) exactly one `medium` alert, and any smaller rise
or a drop yields none. -/
theorem vuln_risk_movement (c p : VulnSnap) :
    ((check_vuln_deltas (some c) (some p)).1.filter isRiskMovement =
      (if 10 ≤ c.stats.avg_risk_score - p.stats.avg_risk_score then
        [riskSpikeAlert p.stats.avg_risk_score c.stats.avg_risk_score]
      else if 5 ≤ c.stats.avg_risk_score - p.stats.avg_risk_score then
        [riskIncreaseAlert p.stats.avg_risk_score c.stats.avg_risk_score]
      else [])) ∧
    (riskSpikeAlert p.stats.avg_risk_score c.stats.avg_risk_score).tier = "high" ∧
    (riskIncreaseAlert p.stats.avg_risk_score c.stats.avg_risk_score).tier = "medium" := by
  refine ⟨?_, rfl, rfl⟩
  simp only [check_vuln_deltas, List.filter_append]
  rw [filter_map_false vulnCritAlert isRiskMovement isRiskMovement_vulnCrit,
      filter_map_false vulnHighAlert isRiskMovement isRiskMovement_vulnHigh]
  have hmed : ∀ l : List (String × String × Finding),
      (if l.isEmpty then ([] : List Alert) else [vulnMediumAgg l]).filter isRiskMovement
        = [] := by
    intro l
    split
    · rfl
    · simp [List.filter_cons, isRiskMovement_vulnMediumAgg]
  rw [hmed]
  simp only [List.nil_append]
  split_ifs <;> simp [List.filter_cons, isRiskMovement, riskSpikeAlert, riskIncreaseAlert]

/-- A one-field vulnerability snapshot used to exhibit the risk-direction
counterexample: no hosts, a given average risk score. -/
def riskOnlySnap (r : Int) : VulnSnap :=
  { hosts := [], stats := { avg_risk_score := r, total_findings := 0 } }

/-- C1 counterexample: between a previous snapshot with
`stats.avg_risk_score = 50` and a current one with `40` the average risk
score *drops* by 10, yet `check_vuln_deltas` emits no alert at all — the
code alerts on a rise of `avg_risk_score` (`delta = curr - prev >= 10`),
not on a drop as the claim states. -/
theorem vuln_risk_drop_counterexample :
    ((riskOnlySnap 50).stats.avg_risk_score - (riskOnlySnap 40).stats.avg_risk_score
      = 10) ∧
    (check_vuln_deltas (some (riskOnlySnap 40)) (some (riskOnlySnap 50))).1 = [] := by
  decide

/-- A `vuln_new` alert of a given tier. -/
def isNewVulnAlert (t : String) (a : Alert) : Bool :=
  a.tier == t && a.category == "vuln_new"

/-- C5: severity bucketing of `check_vuln_deltas`.  Every new `critical`
finding yields its own `critical` alert and every new `high` finding its
own `high` alert (the counts agree exactly); all new `medium` findings
produce one single aggregated `medium` alert — present exactly when the
medium bucket is nonempty — whose detail lists at most the first 5
examples. -/
theorem vuln_severity_bucketing (c p : VulnSnap) :
    ((check_vuln_deltas (some c) (some p)).1.countP (isNewVulnAlert "critical") =
      (bySev (newFindingsOf c.hosts p.hosts) "critical").length) ∧
    ((check_vuln_deltas (some c) (some p)).1.countP (isNewVulnAlert "high") =
      (bySev (newFindingsOf c.hosts p.hosts) "high").length) ∧
    ((check_vuln_deltas (some c) (some p)).1.filter (isNewVulnAlert "medium") =
      (if (bySev (newFindingsOf c.hosts p.hosts) "medium").isEmpty then []
       else [vulnMediumAgg (bySev (newFindingsOf c.hosts p.hosts) "medium")])) ∧
    ((vulnMediumAgg (bySev (newFindingsOf c.hosts p.hosts) "medium")).detail =
      pyJoin "; " (((bySev (newFindingsOf c.hosts p.hosts) "medium").take 5).map
        (fun x => x.1 ++ ":" ++ x.2.2.ftype))) := by
  refine ⟨?_, ?_, ?_, rfl⟩
  · simp only [check_vuln_deltas, List.countP_append]
    rw [countP_map_true vulnCritAlert _ (fun _ => rfl),
        countP_map_false vulnHighAlert _ (fun _ => rfl)]
    have h3 : (if (bySev (newFindingsOf c.hosts p.hosts) "medium").isEmpty then []
        else [vulnMediumAgg (bySev (newFindingsOf c.hosts p.hosts) "medium")]).countP
          (isNewVulnAlert "critical") = 0 := by
      split
      · rfl
      · simp [List.countP_cons,
          show ∀ l, isNewVulnAlert "critical" (vulnMediumAgg l) = false from fun _ => rfl]
    rw [h3]
    split_ifs <;>
      simp [List.countP_cons, isNewVulnAlert, riskSpikeAlert, riskIncreaseAlert]
  · simp only [check_vuln_deltas, List.countP_append]
    rw [countP_map_false vulnCritAlert _ (fun _ => rfl),
        countP_map_true vulnHighAlert _ (fun _ => rfl)]
    have h3 : (if (bySev (newFindingsOf c.hosts p.hosts) "medium").isEmpty then []
        else [vulnMediumAgg (bySev (newFindingsOf c.hosts p.hosts) "medium")]).countP
          (isNewVulnAlert "high") = 0 := by
      split
      · rfl
      · simp [List.countP_cons,
          show ∀ l, isNewVulnAlert "high" (vulnMediumAgg l) = false from fun _ => rfl]
    rw [h3]
    split_ifs <;>
      simp [List.countP_cons, isNewVulnAlert, riskSpikeAlert, riskIncreaseAlert]
  · simp only [check_vuln_deltas, List.filter_append]
    rw [filter_map_false vulnCritAlert _ (fun _ => rfl),
        filter_map_false vulnHighAlert _ (fun _ => rfl)]
    have h4 : (if 10 ≤ c.stats.avg_risk_score - p.stats.avg_risk_score then
          [riskSpikeAlert p.stats.avg_risk_score c.stats.avg_risk_score]
        else if 5 ≤ c.stats.avg_risk_score - p.stats.avg_risk_score then
          [riskIncreaseAlert p.stats.avg_risk_score c.stats.avg_risk_score]
        else []).filter (isNewVulnAlert "medium") = [] := by
      split_ifs <;>
        simp [List.filter_cons, isNewVulnAlert, riskSpikeAlert, riskIncreaseAlert]
    rw [h4]
    have h3 : (if (bySev (newFindingsOf c.hosts p.hosts) "medium").isEmpty then []
        else [vulnMediumAgg (bySev (newFindingsOf c.hosts p.hosts) "medium")]).filter
          (isNewVulnAlert "medium") =
        (if (bySev (newFindingsOf c.hosts p.hosts) "medium").isEmpty then []
         else [vulnMediumAgg (bySev (newFindingsOf c.hosts p.hosts) "medium")]) := by
      split
      · rfl
      · simp [List.filter_cons,
          show ∀ l, isNewVulnAlert "medium" (vulnMediumAgg l) = true from fun _ => rfl]
    rw [h3]
    simp

/-- `CERT_WARN_DAYS` (watchdog.py line 69). -/
def CERT_WARN_DAYS : Int := 30

/-- `CERT_CRIT_DAYS` (watchdog.py line 70). -/
def CERT_CRIT_DAYS : Int := 7

/-- The per-target tier decision of `check_cert_expiry` (watchdog.py
lines 534-551), given the computed whole days remaining `days_left` and
the formatted expiry date (`expiry.strftime('%Y-%m-%d')`).  Returns
`none` for a healthy certificate (no alert). -/
def certAlertFor (host : String) (port : Nat) (days_left : Int)
    (expiry : String) : Option Alert :=
  if days_left ≤ 0 then
    some { tier := "critical", category := "cert_expired",
           title := "CERT EXPIRED: " ++ host ++ ":" ++ toString port ++
                    " (" ++ toString days_left.natAbs ++ "d ago)",
           detail := "Expires " ++ expiry, host := host }
  else if days_left ≤ CERT_CRIT_DAYS then
    some { tier := "high", category := "cert_expiring",
           title := "Cert expires in " ++ toString days_left ++ "d: " ++
                    host ++ ":" ++ toString port,
           detail := "Expires " ++ expiry, host := host }
  else if days_left ≤ CERT_WARN_DAYS then
    some { tier := "medium", category := "cert_expiring",
           title := "Cert expires in " ++ toString days_left ++ "d: " ++
                    host ++ ":" ++ toString port,
           detail := "Expires " ++ expiry, host := host }
  else none

/-- The `stats` dict of `check_cert_expiry`. -/
structure CertStats where
  checked : Nat := 0
  expiring : Nat := 0
  status : String := ""
deriving Repr, DecidableEq, Inhabited

/-- The probing loop of `check_cert_expiry` (lines 519-559) over an
explicit target set; `probe h p` stands for the openssl handshake and
date parse, `some (days_left, expiry)` on success and `none` when the
output has no `notAfter=` line or the date fails to parse (the `continue`
branches). -/
def check_cert_expiry (targets : List (String × Nat))
    (probe : String → Nat → Option (Int × String)) : List Alert × CertStats :=
  let results := targets.filterMap (fun t =>
    (probe t.1 t.2).bind (fun de =>
      (certAlertFor t.1 t.2 de.1 de.2).map (fun a => (t.1, t.2, de.1, a))))
  (results.map (fun r => r.2.2.2),
   { checked := targets.length, expiring := results.length,
     status := if results.any (fun r => decide (r.2.2.1 ≤ 0)) then "critical"
               else if !results.isEmpty then "warning" else "ok" })

/-- C4: for a TLS target whose expiry parse succeeded, the alert tier is
an exact function of whole days remaining: `days_left <= 0` is `critical`
(category `cert_expired`), `1..7` is `high`, `8..30` is `medium` (both
`cert_expiring`), and `>= 31` produces no alert. -/
theorem cert_expiry_tiers (host : String) (port : Nat) (d : Int) (expiry : String) :
    (d ≤ 0 → (certAlertFor host port d expiry).map Alert.tier = some "critical" ∧
      (certAlertFor host port d expiry).map Alert.category = some "cert_expired") ∧
    (1 ≤ d → d ≤ 7 →
      (certAlertFor host port d expiry).map Alert.tier = some "high" ∧
      (certAlertFor host port d expiry).map Alert.category = some "cert_expiring") ∧
    (8 ≤ d → d ≤ 30 →
      (certAlertFor host port d expiry).map Alert.tier = some "medium" ∧
      (certAlertFor host port d expiry).map Alert.category = some "cert_expiring") ∧
    (31 ≤ d → certAlertFor host port d expiry = none) := by
  refine ⟨fun h => ?_, fun h1 h2 => ?_, fun h1 h2 => ?_, fun h => ?_⟩ <;>
    (simp only [certAlertFor, CERT_CRIT_DAYS, CERT_WARN_DAYS]
     split_ifs <;> first
       | exact ⟨rfl, rfl⟩
       | rfl
       | omega)

/-- Witness for `cert_expiry_tiers` at the boundary values 0, 7, 8, 30
and 31 days remaining. -/
theorem cert_expiry_tiers_witness :
    ((certAlertFor "192.168.1.10" 443 0 "2025-01-01").map Alert.tier = some "critical" ∧
      (certAlertFor "192.168.1.10" 443 0 "2025-01-01").map Alert.category
        = some "cert_expired") ∧
    ((certAlertFor "192.168.1.10" 443 7 "2025-01-08").map Alert.tier = some "high" ∧
      (certAlertFor "192.168.1.10" 443 7 "2025-01-08").map Alert.category
        = some "cert_expiring") ∧
    ((certAlertFor "192.168.1.10" 443 8 "2025-01-09").map Alert.tier = some "medium" ∧
      (certAlertFor "192.168.1.10" 443 8 "2025-01-09").map Alert.category
        = some "cert_expiring") ∧
    ((certAlertFor "192.168.1.10" 443 30 "2025-01-31").map Alert.tier = some "medium" ∧
      (certAlertFor "192.168.1.10" 443 30 "2025-01-31").map Alert.category
        = some "cert_expiring") ∧
    (certAlertFor "192.168.1.10" 443 31 "2025-02-01" = none) :=
  ⟨(cert_expiry_tiers "192.168.1.10" 443 0 "2025-01-01").1 (by decide),
   (cert_expiry_tiers "192.168.1.10" 443 7 "2025-01-08").2.1 (by decide) (by decide),
   (cert_expiry_tiers "192.168.1.10" 443 8 "2025-01-09").2.2.1 (by decide) (by decide),
   (cert_expiry_tiers "192.168.1.10" 443 30 "2025-01-31").2.2.1 (by decide) (by decide),
   (cert_expiry_tiers "192.168.1.10" 443 31 "2025-02-01").2.2.2 (by decide)⟩

/-- Python `str.upper()` (per code point). -/
def strUpper (s : String) : String :=
  ⟨s.data.map Char.toUpper⟩

/-- Keep the first occurrence of every element, in order — the key order
of a Python dict built by repeated `d[k].append(...)` insertion. -/
def firstDedupAux : List String → List String → List String
  | [], _ => []
  | x :: xs, seen =>
    if seen.contains x then firstDedupAux xs seen
    else x :: firstDedupAux xs (x :: seen)

def firstDedup (l : List String) : List String :=
  firstDedupAux l []

/-- Python `sorted` on strings (insertion sort under code-point order). -/
def insertSorted (x : String) : List String → List String
  | [] => [x]
  | y :: ys => if pyStrLt x y then x :: y :: ys else y :: insertSorted x ys

def sortStrings : List String → List String
  | [] => []
  | x :: xs => insertSorted x (sortStrings xs)

/-- One open-port record of a network-scan host. -/
structure SPort where
  port : Nat
  proto : String
  service : String
deriving Repr, DecidableEq, Inhabited

/-- A network-scan snapshot host. -/
structure ScanHost where
  mac : String
  ports : List SPort
  device_type : String
  security_score : Int
  mdns_name : String
  hostname : String
  vendor_oui : String
deriving Repr, DecidableEq, Inhabited

/-- The network-scan snapshot's `security` object. -/
structure ScanSecurity where
  avg_score : Int
  critical : Int
deriving Repr, DecidableEq, Inhabited

/-- A network-scan snapshot: `{hosts: {...}, security: {...}}`. -/
structure Scan where
  hosts : List (String × ScanHost)
  security : ScanSecurity
deriving Repr, DecidableEq, Inhabited

/-- `GATEWAY_IP` (watchdog.py line 57). -/
def GATEWAY_IP : String := "192.168.1.254"

/-- `CRITICAL_DEVICE_TYPES` (watchdog.py line 60). -/
def CRITICAL_DEVICE_TYPES : List String := ["server", "network"]

/-- The `known` IP→MAC map of `check_arp_integrity` (lines 168-177):
hosts of the latest scan with a nonempty MAC, upper-cased. -/
def knownOf (scan : Scan) : List (String × String) :=
  scan.hosts.filterMap (fun ipv =>
    let mac := strUpper ipv.2.mac
    if mac = "" then none else some (ipv.1, mac))

/-- The `known_macs` set of `check_arp_integrity`. -/
def knownMacsOf (scan : Scan) : List String :=
  (knownOf scan).map Prod.snd

/-- The ARP mismatch alert (lines 195-205); `isKnown` is
`curr_mac in known_macs`. -/
def arpMismatchAlert (ip exp cm : String) (isKnown : Bool) : Alert :=
  { tier := if isKnown then "high" else "critical",
    category := "arp_anomaly",
    title := "ARP change: " ++ ip ++ " MAC " ++ strTake exp 8 ++ "…→" ++
             strTake cm 8 ++ "…",
    detail := "Expected " ++ exp ++ ", got " ++ cm ++ " " ++
      (if isKnown then "(known device — possible DHCP reassignment)"
       else "(unknown MAC — possible ARP spoof)"),
    host := ip }

/-- The live pairs that disagree with the recorded scan MAC, as
`(ip, expected, current)` in live-table order (lines 192-206). -/
def arpMismatches (known : List (String × String)) (live : List (String × String)) :
    List (String × String × String) :=
  live.filterMap (fun ipm =>
    match alookup known ipm.1 with
    | some exp => if ipm.2 ≠ exp then some (ipm.1, exp, ipm.2) else none
    | none => none)

/-- The `mac_ips` grouping of lines 209-211: every live MAC (first
occurrence order) with the live IPs claiming it (live-table order). -/
def macIps (live : List (String × String)) : List (String × List String) :=
  (firstDedup (live.map Prod.snd)).map (fun mac =>
    (mac, live.filterMap (fun ipm => if ipm.2 = mac then some ipm.1 else none)))

/-- The duplicate-MAC alert of lines 213-219. -/
def arpDupAlert (mac : String) (ips : List String) : Alert :=
  { tier := "medium", category := "arp_dup_mac",
    title := "MAC " ++ strTake mac 8 ++ "… claimed by " ++
             toString ips.length ++ " IPs",
    detail := pyJoin ", " ((sortStrings ips).take 6),
    host := ips.headD "" }

/-- The `stats` dict of `check_arp_integrity`. -/
structure ArpStats where
  checked : Nat := 0
  anomalies : Nat := 0
  status : String := ""
deriving Repr, DecidableEq, Inhabited

/-- `check_arp_integrity` (watchdog.py lines 164-227).  `live` is the
parsed `ip neigh show` table (the regex parse of lines 180-190 is the
I/O boundary: IP→MAC pairs in reachable states inside the subnet, MACs
upper-cased by the parse); `none` for `scan` stands for a missing latest
scan snapshot, under which `known` stays empty but the duplicate-MAC
detection still runs. -/
def check_arp_integrity (scan : Option Scan) (live : List (String × String)) :
    List Alert × ArpStats :=
  let known := match scan with | none => [] | some s => knownOf s
  let knownMacs := match scan with | none => [] | some s => knownMacsOf s
  let mism := arpMismatches known live
  let mAlerts := mism.map (fun m => arpMismatchAlert m.1 m.2.1 m.2.2 (knownMacs.contains m.2.2))
  let dAlerts := (macIps live).filterMap (fun mi =>
    if 3 < mi.2.length then some (arpDupAlert mi.1 mi.2) else none)
  let alerts := mAlerts ++ dAlerts
  (alerts,
   { checked := live.length, anomalies := mism.length,
     status := if alerts.any (fun a => a.tier == "critical") then "critical"
               else if mism.length ≠ 0 then "warning" else "ok" })

/-- C6: ARP classification.  (1) Every live IP→MAC pair whose IP has a
recorded MAC in the latest scan and whose observed MAC differs yields an
`arp_anomaly` alert on that host, `high` when the observed MAC occurs
elsewhere in the known-device MAC set and `critical` when it occurs
nowhere in it.  (2) Every MAC claimed by more than 3 live IPs yields the
`medium` duplicate-MAC alert.  (3) Every duplicate-MAC alert arises from
a MAC claimed by more than 3 live IPs — 3 or fewer yield none. -/
theorem arp_classification (scan : Scan) (live : List (String × String)) :
    (∀ ip cm exp, (ip, cm) ∈ live → alookup (knownOf scan) ip = some exp →
      cm ≠ exp →
      ∃ a ∈ (check_arp_integrity (some scan) live).1,
        a.host = ip ∧ a.category = "arp_anomaly" ∧
        a.tier = (if (knownMacsOf scan).contains cm then "high" else "critical")) ∧
    (∀ mac ips, (mac, ips) ∈ macIps live → 3 < ips.length →
      ∃ a ∈ (check_arp_integrity (some scan) live).1,
        a = arpDupAlert mac ips ∧ a.tier = "medium" ∧ a.category = "arp_dup_mac") ∧
    (∀ a ∈ (check_arp_integrity (some scan) live).1, a.category = "arp_dup_mac" →
      ∃ mac ips, (mac, ips) ∈ macIps live ∧ 3 < ips.length ∧ a = arpDupAlert mac ips) := by
  refine ⟨?_, ?_, ?_⟩
  · intro ip cm exp hmem hlook hne
    have hm : (ip, exp, cm) ∈ arpMismatches (knownOf scan) live := by
      refine List.mem_filterMap.2 ⟨(ip, cm), hmem, ?_⟩
      simp only [hlook]
      simp [hne]
    refine ⟨arpMismatchAlert ip exp cm ((knownMacsOf scan).contains cm), ?_, rfl, rfl, ?_⟩
    · simp only [check_arp_integrity, List.mem_append]
      exact Or.inl (List.mem_map.2 ⟨(ip, exp, cm), hm, rfl⟩)
    · by_cases h : (knownMacsOf scan).contains cm = true <;>
        simp [arpMismatchAlert, h]
  · intro mac ips hmem hlen
    refine ⟨arpDupAlert mac ips, ?_, rfl, rfl, rfl⟩
    simp only [check_arp_integrity, List.mem_append]
    refine Or.inr (List.mem_filterMap.2 ⟨(mac, ips), hmem, ?_⟩)
    simp [hlen]
  · intro a hmem hcat
    simp only [check_arp_integrity, List.mem_append] at hmem
    rcases hmem with hm | hd
    · rcases List.mem_map.1 hm with ⟨m, _, rfl⟩
      simp [arpMismatchAlert] at hcat
    · rcases List.mem_filterMap.1 hd with ⟨mi, hmi, hsome⟩
      by_cases h : 3 < mi.2.length
      · refine ⟨mi.1, mi.2, hmi, h, ?_⟩
        simp only [h, if_pos] at hsome
        exact (Option.some_inj.1 hsome).symm
      · simp [h] at hsome

/-- A scan host with the given MAC, device type, ports and security
score (remaining name fields empty), for concrete witnesses. -/
def mkScanHost (mac dtype : String) (ports : List SPort) (score : Int) : ScanHost :=
  { mac := mac, ports := ports, device_type := dtype, security_score := score,
    mdns_name := "", hostname := "", vendor_oui := "" }

/-- The scan snapshot used by the ARP witness: three known devices. -/
def arpScanEx : Scan :=
  { hosts :=
      [("192.168.1.20", mkScanHost "AA:AA:AA:AA:AA:01" "iot" [] 80),
       ("192.168.1.21", mkScanHost "AA:AA:AA:AA:AA:02" "iot" [] 80),
       ("192.168.1.22", mkScanHost "AA:AA:AA:AA:AA:03" "iot" [] 80)],
    security := { avg_score := 80, critical := 0 } }

/-- The live ARP table used by the ARP witness: one unknown-MAC mismatch,
one known-MAC mismatch, one MAC claimed by four IPs. -/
def arpLiveEx : List (String × String) :=
  [("192.168.1.20", "FF:FF:FF:FF:FF:01"),
   ("192.168.1.21", "AA:AA:AA:AA:AA:03"),
   ("192.168.1.30", "CC:CC:CC:CC:CC:01"),
   ("192.168.1.31", "CC:CC:CC:CC:CC:01"),
   ("192.168.1.32", "CC:CC:CC:CC:CC:01"),
   ("192.168.1.33", "CC:CC:CC:CC:CC:01")]

/-- Witness for `arp_classification` on a concrete scan and live table:
an unrecognized observed MAC yields `critical`, an observed MAC known
elsewhere yields `high`, and a MAC claimed by 4 live IPs yields the
`medium` duplicate alert. -/
theorem arp_classification_witness :
    (∃ a ∈ (check_arp_integrity (some arpScanEx) arpLiveEx).1,
      a.host = "192.168.1.20" ∧ a.category = "arp_anomaly" ∧
      a.tier = (if (knownMacsOf arpScanEx).contains "FF:FF:FF:FF:FF:01"
                then "high" else "critical")) ∧
    (∃ a ∈ (check_arp_integrity (some arpScanEx) arpLiveEx).1,
      a.host = "192.168.1.21" ∧ a.category = "arp_anomaly" ∧
      a.tier = (if (knownMacsOf arpScanEx).contains "AA:AA:AA:AA:AA:03"
                then "high" else "critical")) ∧
    (∃ a ∈ (check_arp_integrity (some arpScanEx) arpLiveEx).1,
      a = arpDupAlert "CC:CC:CC:CC:CC:01"
            ["192.168.1.30", "192.168.1.31", "192.168.1.32", "192.168.1.33"] ∧
      a.tier = "medium" ∧ a.category = "arp_dup_mac") :=
  have h := arp_classification arpScanEx arpLiveEx
  ⟨h.1 "192.168.1.20" "FF:FF:FF:FF:FF:01" "AA:AA:AA:AA:AA:01"
      (by decide) (by decide) (by decide),
   h.1 "192.168.1.21" "AA:AA:AA:AA:AA:03" "AA:AA:AA:AA:AA:02"
      (by decide) (by decide) (by decide),
   h.2.1 "CC:CC:CC:CC:CC:01"
      ["192.168.1.30", "192.168.1.31", "192.168.1.32", "192.168.1.33"]
      (by decide) (by decide)⟩

/-- Substring containment on code-point lists (`re.search` of a literal). -/
def containsSub (hay needle : List Char) : Bool :=
  if needle.isPrefixOf hay then true
  else
    match hay with
    | [] => false
    | _ :: t => containsSub t needle

/-- `needle` occurs somewhere in `hay`. -/
def strContains (hay needle : String) : Bool :=
  containsSub hay.data needle.data

/-- The ping-success test of `check_device_availability` (line 330):
`re.search(r'[12] (packets )?received', result)` on the ping output,
i.e. one of the four literal forms occurs. -/
def pingOk (out : String) : Bool :=
  strContains out "1 received" || strContains out "2 received" ||
  strContains out "1 packets received" || strContains out "2 packets received"

/-- Python's `a or b or c or d` over strings: the first nonempty value,
else the final default. -/
def firstNonempty (opts : List String) (dflt : String) : String :=
  match opts.find? (fun s => !(s == "")) with
  | some s => s
  | none => dflt

/-- The auto-identified critical devices of `check_device_availability`
(lines 315-321): hosts whose `device_type` is in
`CRITICAL_DEVICE_TYPES`, as `(ip, display name, device_type)`. -/
def criticalDevicesOf (scan : Scan) : List (String × String × String) :=
  scan.hosts.filterMap (fun ipv =>
    if CRITICAL_DEVICE_TYPES.contains ipv.2.device_type then
      some (ipv.1,
            firstNonempty [ipv.2.mdns_name, ipv.2.hostname, ipv.2.vendor_oui] ipv.1,
            ipv.2.device_type)
    else none)

/-- Lines 323-325: the gateway is added to the critical map when not
already present. -/
def withGateway (crit : List (String × String × String)) :
    List (String × String × String) :=
  if (crit.map Prod.fst).contains GATEWAY_IP then crit
  else crit ++ [(GATEWAY_IP, "Gateway", "network")]

/-- The set of devices `check_device_availability` pings in a run: empty
when the latest scan snapshot is missing (the early `return` of
line 312), otherwise the critical devices plus the gateway. -/
def pingedDevices (scan : Option Scan) : List (String × String × String) :=
  match scan with
  | none => []
  | some s => withGateway (criticalDevicesOf s)

/-- The offline alert of lines 332-337. -/
def offlineAlert (ip name dtype : String) : Alert :=
  { tier := "high", category := "device_offline",
    title := "Offline: " ++ name ++ " (" ++ ip ++ ")",
    detail := dtype ++ " device not responding to ping",
    host := ip }

/-- The `stats` dict of `check_device_availability`; the no-snapshot
early return produces the empty dict, modelled by the defaults. -/
structure AvailStats where
  critical_total : Nat := 0
  offline : Nat := 0
  status : String := ""
deriving Repr, DecidableEq, Inhabited

/-- `check_device_availability` (watchdog.py lines 307-341); `pingOut ip`
stands for the output of `ping -c 2 -W 2 <ip>`. -/
def check_device_availability (scan : Option Scan) (pingOut : String → String) :
    List Alert × AvailStats :=
  match scan with
  | none => ([], {})
  | some s =>
    let critical := withGateway (criticalDevicesOf s)
    let missing := critical.filter (fun d => !(pingOk (pingOut d.1)))
    (missing.map (fun d => offlineAlert d.1 d.2.1 d.2.2),
     { critical_total := critical.length, offline := missing.length,
       status := if missing.length ≠ 0 then "critical" else "ok" })

/-- C7 counterexample: when the latest network-scan snapshot is absent,
`check_device_availability` returns immediately — no device, not even the
gateway, is pinged, and no alert can be emitted — contradicting the
claim that the gateway is pinged in every run regardless of the
snapshot's absence. -/
theorem device_availability_no_snapshot_counterexample :
    pingedDevices none = [] ∧
    ¬ (GATEWAY_IP ∈ (pingedDevices none).map (fun d => d.1)) ∧
    check_device_availability none (fun _ => "") = ([], {}) := by
  decide

/-- C7 (amended): whenever the latest scan snapshot is present, the
pinged set always contains the gateway, and contains every host whose
`device_type` is `server` or `network`; every pinged device whose
2-attempt ping output shows no received packet yields its `high`
`device_offline` alert. -/
theorem device_availability_gateway (s : Scan) (pingOut : String → String) :
    (GATEWAY_IP ∈ (pingedDevices (some s)).map (fun d => d.1)) ∧
    (∀ ip h, (ip, h) ∈ s.hosts →
      CRITICAL_DEVICE_TYPES.contains h.device_type = true →
      ip ∈ (pingedDevices (some s)).map (fun d => d.1)) ∧
    (∀ d ∈ pingedDevices (some s), pingOk (pingOut d.1) = false →
      offlineAlert d.1 d.2.1 d.2.2 ∈ (check_device_availability (some s) pingOut).1 ∧
      (offlineAlert d.1 d.2.1 d.2.2).tier = "high") := by
  refine ⟨?_, ?_, ?_⟩
  · show GATEWAY_IP ∈ (withGateway (criticalDevicesOf s)).map (fun d => d.1)
    unfold withGateway
    split
    · next hin =>
      have : GATEWAY_IP ∈ (criticalDevicesOf s).map Prod.fst := by
        simpa using hin
      simpa using this
    · simp
  · intro ip h hmem hcrit
    show ip ∈ (withGateway (criticalDevicesOf s)).map (fun d => d.1)
    have hin : ip ∈ (criticalDevicesOf s).map Prod.fst := by
      refine List.mem_map.2 ⟨(ip,
        firstNonempty [h.mdns_name, h.hostname, h.vendor_oui] ip,
        h.device_type), ?_, rfl⟩
      refine List.mem_filterMap.2 ⟨(ip, h), hmem, ?_⟩
      have : h.device_type ∈ CRITICAL_DEVICE_TYPES := by simpa using hcrit
      simp [hcrit, this]
    unfold withGateway
    split
    · simpa using hin
    · simp only [List.map_append, List.mem_append]
      exact Or.inl (by simpa using hin)
  · intro d hmem hping
    refine ⟨?_, rfl⟩
    simp only [check_device_availability]
    refine List.mem_map.2 ⟨d, ?_, rfl⟩
    exact List.mem_filter.2 ⟨hmem, by simp [hping]⟩

/-- The scan snapshot used by the availability witness: one server. -/
def availScanEx : Scan :=
  { hosts := [("192.168.1.10", mkScanHost "AA:AA:AA:AA:AA:10" "server" [] 70)],
    security := { avg_score := 70, critical := 0 } }

/-- Witness for `device_availability_gateway`: with a concrete scan and a
ping that never answers, the gateway and the server are both in the
pinged set and the gateway's offline alert is emitted as `high`. -/
theorem device_availability_gateway_witness :
    (GATEWAY_IP ∈ (pingedDevices (some availScanEx)).map (fun d => d.1)) ∧
    ("192.168.1.10" ∈ (pingedDevices (some availScanEx)).map (fun d => d.1)) ∧
    (offlineAlert GATEWAY_IP "Gateway" "network" ∈
      (check_device_availability (some availScanEx) (fun _ => "")).1 ∧
     (offlineAlert GATEWAY_IP "Gateway" "network").tier = "high") :=
  have h := device_availability_gateway availScanEx (fun _ => "")
  ⟨h.1,
   h.2.1 "192.168.1.10" (mkScanHost "AA:AA:AA:AA:AA:10" "server" [] 70)
     (by decide) (by decide),
   h.2.2 (GATEWAY_IP, "Gateway", "network") (by decide) (by decide)⟩

/-- Split into the maximal leading digit run and the rest. -/
def spanDigits : List Char → List Char × List Char
  | [] => ([], [])
  | c :: cs =>
    if c.isDigit then
      let (d, r) := spanDigits cs
      (c :: d, r)
    else ([], c :: cs)

/-- Attempt the regex fragment `\d+\.\d+\.\d+\.\d+` at the start of the
input (greedy digit runs, as in `re`), returning the matched text. -/
def parseIPAt (cs : List Char) : Option String :=
  let (d1, r1) := spanDigits cs
  if d1.isEmpty then none else
  match r1 with
  | '.' :: r1b =>
    let (d2, r2) := spanDigits r1b
    if d2.isEmpty then none else
    match r2 with
    | '.' :: r2b =>
      let (d3, r3) := spanDigits r2b
      if d3.isEmpty then none else
      match r3 with
      | '.' :: r3b =>
        let (d4, _) := spanDigits r3b
        if d4.isEmpty then none
        else some ⟨d1 ++ '.' :: d2 ++ '.' :: d3 ++ '.' :: d4⟩
      | _ => none
    | _ => none
  | _ => none

def dhcpServerIdLit : List Char := "Server Identifier:".data

/-- `re.search(r'Server Identifier:\s*(\d+\.\d+\.\d+\.\d+)', line)`:
scan left to right for the literal; at each occurrence skip whitespace
and attempt the IP fragment, falling through to later occurrences on
failure, exactly as backtracking search does. -/
def searchServerId : List Char → Option String
  | [] => none
  | c :: cs =>
    if dhcpServerIdLit.isPrefixOf (c :: cs) then
      match parseIPAt (((c :: cs).drop dhcpServerIdLit.length).dropWhile Char.isWhitespace) with
      | some ip => some ip
      | none => searchServerId cs
    else searchServerId cs

/-- Python `str.splitlines()` for the line terminators nmap emits
(`\n`, `\r\n`, `\r`); no trailing empty line. -/
def splitLinesAux : List Char → List Char → List (List Char)
  | [], acc => if acc.isEmpty then [] else [acc.reverse]
  | '\r' :: '\n' :: rest, acc => acc.reverse :: splitLinesAux rest []
  | '\n' :: rest, acc => acc.reverse :: splitLinesAux rest []
  | '\r' :: rest, acc => acc.reverse :: splitLinesAux rest []
  | c :: rest, acc => splitLinesAux rest (c :: acc)

def splitLines (s : String) : List String :=
  (splitLinesAux s.data []).map (fun cs => ⟨cs⟩)

/-- `KNOWN_DHCP_SERVERS` (watchdog.py line 63). -/
def KNOWN_DHCP_SERVERS : List String := ["192.168.1.254"]

/-- The `servers` set of `check_rogue_dhcp` (lines 580-584): every
`Server Identifier` parsed from the nmap output (`firstDedup` models the
set's deduplication; the claims do not depend on set iteration order). -/
def dhcpServersOf (out : String) : List String :=
  firstDedup ((splitLines out).filterMap (fun l => searchServerId l.data))

/-- `rogue = servers - KNOWN_DHCP_SERVERS` (line 586). -/
def dhcpRogueOf (out : String) : List String :=
  (dhcpServersOf out).filter (fun ip => !(KNOWN_DHCP_SERVERS.contains ip))

/-- The `stats` dict of `check_rogue_dhcp`; the skip branch only carries
`status` and `note`, the probe branch `servers`, `rogue` and `status`. -/
structure DhcpStats where
  servers : List String := []
  rogue : List String := []
  status : String := ""
  note : String := ""
deriving Repr, DecidableEq, Inhabited

/-- The rogue-DHCP alert of lines 587-594. -/
def rogueDhcpAlert (ip : String) : Alert :=
  { tier := "critical", category := "rogue_dhcp",
    title := "Rogue DHCP server: " ++ ip,
    detail := "Unauthorized DHCP server on LAN! Known: " ++
              pyJoin ", " KNOWN_DHCP_SERVERS,
    host := ip }

/-- `check_rogue_dhcp` (watchdog.py lines 566-600).  `iface` is the
output of the default-interface query and `out` the output of the
`sudo nmap --script broadcast-dhcp-discover` probe; `run_cmd` (lines
118-124) turns any failure of either command into the empty string. -/
def check_rogue_dhcp (iface out : String) : List Alert × DhcpStats :=
  if iface = "" then
    ([], { status := "skip", note := "no default interface" })
  else
    let servers := dhcpServersOf out
    let rogue := dhcpRogueOf out
    (rogue.map rogueDhcpAlert,
     { servers := servers, rogue := rogue,
       status := if !rogue.isEmpty then "critical" else "ok" })

/-- C2 counterexample: with a default interface present but a failed
nmap probe (empty `run_cmd` output — e.g. no elevated rights), the
detector reports `status: ok`, not `skip`: the probe failure is
indistinguishable from a genuine "no rogue server found". -/
theorem rogue_dhcp_probe_failure_counterexample :
    (check_rogue_dhcp "eth0" "").2.status = "ok" ∧
    (check_rogue_dhcp "eth0" "").2.status ≠ "skip" ∧
    (check_rogue_dhcp "eth0" "").1 = [] := by
  decide

/-- C2 (amended): `skip` is reported exactly when no default interface
could be determined; with an interface but a failed (empty-output) nmap
probe the detector reports `ok` with no alerts, the same as a clean
probe; `critical` is reported iff an unauthorized server identifier was
actually parsed — never merely because the probe failed. -/
theorem rogue_dhcp_status (iface out : String) :
    (iface = "" → (check_rogue_dhcp iface out).2.status = "skip") ∧
    (iface ≠ "" → out = "" →
      (check_rogue_dhcp iface out).2.status = "ok" ∧
      (check_rogue_dhcp iface out).1 = []) ∧
    ((check_rogue_dhcp iface out).2.status = "critical" ↔
      iface ≠ "" ∧ dhcpRogueOf out ≠ []) := by
  refine ⟨?_, ?_, ?_⟩
  · intro h
    simp [check_rogue_dhcp, h]
  · intro hif hout
    subst hout
    simp only [check_rogue_dhcp, if_neg hif]
    exact ⟨rfl, rfl⟩
  · by_cases hif : iface = ""
    · simp [check_rogue_dhcp, hif]
    · simp only [check_rogue_dhcp, if_neg hif]
      by_cases hr : (dhcpRogueOf out).isEmpty
      · have : dhcpRogueOf out = [] := List.isEmpty_iff.1 hr
        simp [hr, this]
      · have : dhcpRogueOf out ≠ [] := by
          intro h
          exact hr (by simp [h])
        simp [hr, hif, this]

/-- A concrete nmap `broadcast-dhcp-discover` output fragment announcing
an unauthorized DHCP server. -/
def dhcpOutEx : String :=
  "Interface: eth0\n|   Server Identifier: 192.168.1.99\n|_  Router: 192.168.1.1"

/-- Witness for `rogue_dhcp_status`: empty interface yields `skip`,
failed probe yields `ok` with no alerts, and a parsed unauthorized
server yields `critical`. -/
theorem rogue_dhcp_status_witness :
    ((check_rogue_dhcp "" "anything").2.status = "skip") ∧
    ((check_rogue_dhcp "eth0" "").2.status = "ok" ∧
      (check_rogue_dhcp "eth0" "").1 = []) ∧
    ((check_rogue_dhcp "eth0" dhcpOutEx).2.status = "critical") :=
  ⟨(rogue_dhcp_status "" "anything").1 rfl,
   (rogue_dhcp_status "eth0" "").2.1 (by decide) rfl,
   (rogue_dhcp_status "eth0" dhcpOutEx).2.2.2 ⟨by decide, by decide⟩⟩

/-- A run-history entry (watchdog.py lines 889-892). -/
structure HistEntry where
  ts : String
  mode : String
  counts : List (String × Nat)
  signal : Bool
deriving Repr, DecidableEq, Inhabited

/-- The persisted watchdog state (`load_state`, line 697): the cooldown
map and the run history, plus the `last_run`/`last_mode` markers set by
`main`. -/
structure WState where
  sent_alerts : List (String × String) := []
  history : List HistEntry := []
  last_run : String := ""
  last_mode : String := ""
deriving Repr, DecidableEq, Inhabited

/-- Python dict assignment `m[k] = v`: update the existing key in place,
else append the new key at the end. -/
def assocSet (m : List (String × String)) (k v : String) : List (String × String) :=
  if (alookup m k).isSome then
    m.map (fun p => if p.1 = k then (k, v) else p)
  else m ++ [(k, v)]

/-- Lines 863-864: record the send timestamp for every actionable key. -/
def recordSends (m : List (String × String)) (keys : List String)
    (v : String) : List (String × String) :=
  keys.foldl (fun acc k => assocSet acc k v) m

/-- The per-tier count over the actionable alerts (lines 832-834). -/
def tierCount (actionable : List Alert) (t : String) : Nat :=
  (actionable.filter (fun a => a.tier == t)).length

/-- `dict(tier_counts)`: tiers in first-appearance order with their
counts. -/
def tierCountList (actionable : List Alert) : List (String × Nat) :=
  (firstDedup (actionable.map (fun a => a.tier))).map
    (fun t => (t, tierCount actionable t))

/-- The per-run report (lines 871-880); the heterogeneous per-check
`checks` map is carried by the individual check stats structures above
and omitted here, as no pipeline claim depends on it. -/
structure Report where
  date : String
  run_at : String
  mode : String
  alerts : List Alert
  alert_counts : List (String × Nat)
  signal_sent : Bool
  actionable : Nat
deriving Repr, DecidableEq, Inhabited

/-- The post-check pipeline of `main` (watchdog.py lines 828-900):
cooldown filtering, the notify decision, the conditional send-timestamp
recording, the report, the history update and the cooldown garbage
collection.  `send_ok` stands for the `send_signal` return value,
`cooldown_cutoff` and `gc_cutoff` for the 24-hour and 72-hour ISO cutoff
strings, `now_iso`/`today` for `NOW_ISO`/`TODAY`.  Returns the persisted
state, the `signal_sent` flag and the report. -/
def runPipeline (state : WState) (all_alerts : List Alert)
    (live_only dry_run send_ok : Bool)
    (now_iso cooldown_cutoff gc_cutoff today : String) :
    WState × Bool × Report :=
  let mode := if live_only then "live" else "full"
  let actionable := filter_cooldown all_alerts state.sent_alerts cooldown_cutoff
  let should_send := decide (0 < tierCount actionable "critical") ||
    decide (0 < tierCount actionable "high") ||
    (!live_only && decide (0 < tierCount actionable "medium"))
  let signal_sent :=
    if should_send && !actionable.isEmpty && !dry_run then send_ok else false
  let sent1 :=
    if signal_sent then recordSends state.sent_alerts (actionable.map alertKey) now_iso
    else state.sent_alerts
  let report : Report :=
    { date := today, run_at := now_iso, mode := mode, alerts := all_alerts,
      alert_counts := tierCountList actionable, signal_sent := signal_sent,
      actionable := actionable.length }
  let hist := ({ ts := now_iso, mode := mode, counts := tierCountList actionable,
                 signal := signal_sent } :: state.history).take 200
  let sent2 := sent1.filter (fun p => pyStrLt gc_cutoff p.2)
  ({ sent_alerts := sent2, history := hist,
     last_run := now_iso, last_mode := mode }, signal_sent, report)

theorem alookup_pair_cons (p : String × String) (rest : List (String × String))
    (k : String) :
    alookup (p :: rest) k = if p.1 = k then some p.2 else alookup rest k := rfl

theorem alookup_map_update_ne (m : List (String × String)) (k v k' : String)
    (h : k ≠ k') :
    alookup (m.map (fun p => if p.1 = k then (k, v) else p)) k' = alookup m k' := by
  induction m with
  | nil => rfl
  | cons p rest ih =>
    by_cases hp : p.1 = k
    · rw [List.map_cons, if_pos hp, alookup_pair_cons, alookup_pair_cons]
      simp only [if_neg h, if_neg (hp ▸ h : ¬ p.1 = k')]
      exact ih
    · rw [List.map_cons, if_neg hp, alookup_pair_cons, alookup_pair_cons]
      by_cases hk : p.1 = k'
      · simp [hk]
      · simp only [if_neg hk]
        exact ih

theorem alookup_map_update_found (m : List (String × String)) (k v w : String)
    (h : alookup m k = some w) :
    alookup (m.map (fun p => if p.1 = k then (k, v) else p)) k = some v := by
  induction m with
  | nil => simp [alookup] at h
  | cons p rest ih =>
    by_cases hp : p.1 = k
    · rw [List.map_cons, if_pos hp, alookup_pair_cons]
      simp
    · rw [alookup_pair_cons, if_neg hp] at h
      rw [List.map_cons, if_neg hp, alookup_pair_cons, if_neg hp]
      exact ih h

theorem alookup_append (m l : List (String × String)) (k : String) :
    alookup (m ++ l) k =
      match alookup m k with
      | some w => some w
      | none => alookup l k := by
  induction m with
  | nil => rfl
  | cons p rest ih =>
    rw [List.cons_append, alookup_pair_cons, alookup_pair_cons]
    by_cases hp : p.1 = k
    · simp [hp]
    · simp only [if_neg hp]
      exact ih

theorem alookup_assocSet (m : List (String × String)) (k v k' : String) :
    alookup (assocSet m k v) k' = if k = k' then some v else alookup m k' := by
  unfold assocSet
  by_cases hs : (alookup m k).isSome
  · rw [if_pos hs]
    by_cases hk : k = k'
    · subst hk
      rcases Option.isSome_iff_exists.1 hs with ⟨w, hw⟩
      rw [alookup_map_update_found m k v w hw, if_pos rfl]
    · rw [alookup_map_update_ne m k v k' hk, if_neg hk]
  · rw [if_neg hs, alookup_append]
    have hnone : alookup m k = none := Option.not_isSome_iff_eq_none.1 hs
    by_cases hk : k = k'
    · subst hk
      rw [hnone]
      simp [alookup_pair_cons]
    · cases hm : alookup m k'
      · simp [alookup, hk]
      · simp [hk]

theorem alookup_recordSends (keys : List String) (m : List (String × String))
    (v k : String) :
    alookup (recordSends m keys v) k = if k ∈ keys then some v else alookup m k := by
  induction keys generalizing m with
  | nil => simp [recordSends]
  | cons x xs ih =>
    have hstep : recordSends m (x :: xs) v = recordSends (assocSet m x v) xs v := rfl
    rw [hstep, ih]
    by_cases hx : k ∈ xs
    · simp [hx]
    · rw [if_neg hx, alookup_assocSet]
      by_cases hxk : x = k
      · subst hxk
        simp
      · have hmem : ¬ k ∈ x :: xs := by
          simp only [List.mem_cons, not_or]
          exact ⟨fun h => hxk h.symm, hx⟩
        rw [if_neg hxk, if_neg hmem]

theorem alookup_filter_of_pred (m : List (String × String))
    (p : String × String → Bool) (k v : String)
    (h : alookup m k = some v) (hp : p (k, v) = true) :
    alookup (m.filter p) k = some v := by
  induction m with
  | nil => simp [alookup] at h
  | cons q rest ih =>
    by_cases hq : q.1 = k
    · rw [alookup_pair_cons, if_pos hq] at h
      have hqe : q = (k, v) := by
        rcases q with ⟨qk, qv⟩
        simp only at hq
        simp only [Option.some_inj] at h
        simp [hq, h]
      subst hqe
      rw [List.filter_cons, if_pos hp, alookup_pair_cons, if_pos rfl]
    · rw [alookup_pair_cons, if_neg hq] at h
      rw [List.filter_cons]
      split
      · rw [alookup_pair_cons, if_neg hq]
        exact ih h
      · exact ih h

theorem alookup_eq_none_of_not_mem (m : List (String × String)) (k : String)
    (h : ¬ k ∈ m.map Prod.fst) : alookup m k = none := by
  induction m with
  | nil => rfl
  | cons q rest ih =>
    simp only [List.map_cons, List.mem_cons, not_or] at h
    rw [alookup_pair_cons, if_neg (fun he => h.1 he.symm)]
    exact ih h.2

theorem alookup_filter_nodup (m : List (String × String))
    (p : String × String → Bool) (k : String)
    (hnodup : (m.map Prod.fst).Nodup) :
    alookup (m.filter p) k = none ∨ alookup (m.filter p) k = alookup m k := by
  induction m with
  | nil => exact Or.inl rfl
  | cons q rest ih =>
    simp only [List.map_cons, List.nodup_cons] at hnodup
    rcases hnodup with ⟨hq, hrest⟩
    rw [List.filter_cons]
    split
    · by_cases hk : q.1 = k
      · right
        rw [alookup_pair_cons, if_pos hk, alookup_pair_cons, if_pos hk]
      · rw [alookup_pair_cons, if_neg hk, alookup_pair_cons, if_neg hk]
        exact ih hrest
    · by_cases hk : q.1 = k
      · left
        subst hk
        have hsub : (rest.filter p).map Prod.fst ⊆ rest.map Prod.fst :=
          List.map_subset Prod.fst (List.filter_subset' rest)
        have : ¬ q.1 ∈ (rest.filter p).map Prod.fst := fun hin => hq (hsub hin)
        exact alookup_eq_none_of_not_mem _ _ this
      · rw [alookup_pair_cons, if_neg hk]
        exact ih hrest

theorem charsLt_asymm (a b : List Char) (h : charsLt a b = true) :
    charsLt b a = false := by
  induction a generalizing b with
  | nil =>
    cases b with
    | nil => simp [charsLt] at h
    | cons c cs => simp [charsLt]
  | cons x xs ih =>
    cases b with
    | nil => simp [charsLt] at h
    | cons y ys =>
      simp only [charsLt, Bool.or_eq_true, Bool.and_eq_true, decide_eq_true_eq,
        beq_iff_eq] at h
      rcases h with hlt | ⟨heq, hrec⟩
      · have h1 : ¬ y < x := lt_asymm hlt
        have h2 : ¬ y = x := fun he => lt_irrefl x (he ▸ hlt)
        simp [charsLt, h1, h2]
      · subst heq
        simp [charsLt, lt_irrefl, ih ys hrec]

/-- Python string `<` is asymmetric: a timestamp strictly below another
is never also strictly above it. -/
theorem pyStrLt_asymm (s t : String) (h : pyStrLt s t = true) :
    pyStrLt t s = false :=
  charsLt_asymm s.data t.data h

/-- C8: the send timestamp of an actionable alert's deduplication key is
written into the cooldown map iff the Signal delivery succeeded in that
run.  (1) On a successful send every actionable key maps to `NOW_ISO`
afterwards; (2) when no send succeeded (failed delivery, nothing to
send, or `--dry-run`) no key receives a new timestamp — every key is
either unchanged or garbage-collected away; (3) `--dry-run` never sends;
(4) the run-history entry and (5) the report are still written either
way. -/
theorem send_timestamp_iff_delivery (state : WState) (all_alerts : List Alert)
    (live_only dry_run send_ok : Bool)
    (now_iso cooldown_cutoff gc_cutoff today : String)
    (hnodup : (state.sent_alerts.map Prod.fst).Nodup)
    (hnow : pyStrLt gc_cutoff now_iso = true) :
    ((runPipeline state all_alerts live_only dry_run send_ok now_iso
        cooldown_cutoff gc_cutoff today).2.1 = true →
      ∀ a ∈ filter_cooldown all_alerts state.sent_alerts cooldown_cutoff,
        alookup (runPipeline state all_alerts live_only dry_run send_ok now_iso
          cooldown_cutoff gc_cutoff today).1.sent_alerts (alertKey a)
          = some now_iso) ∧
    ((runPipeline state all_alerts live_only dry_run send_ok now_iso
        cooldown_cutoff gc_cutoff today).2.1 = false →
      ∀ k, alookup (runPipeline state all_alerts live_only dry_run send_ok now_iso
          cooldown_cutoff gc_cutoff today).1.sent_alerts k = none ∨
        alookup (runPipeline state all_alerts live_only dry_run send_ok now_iso
          cooldown_cutoff gc_cutoff today).1.sent_alerts k
          = alookup state.sent_alerts k) ∧
    (dry_run = true →
      (runPipeline state all_alerts live_only dry_run send_ok now_iso
        cooldown_cutoff gc_cutoff today).2.1 = false) ∧
    ((runPipeline state all_alerts live_only dry_run send_ok now_iso
        cooldown_cutoff gc_cutoff today).1.history.head? =
      some { ts := now_iso, mode := if live_only then "live" else "full",
             counts := tierCountList
               (filter_cooldown all_alerts state.sent_alerts cooldown_cutoff),
             signal := (runPipeline state all_alerts live_only dry_run send_ok
               now_iso cooldown_cutoff gc_cutoff today).2.1 }) ∧
    ((runPipeline state all_alerts live_only dry_run send_ok now_iso
        cooldown_cutoff gc_cutoff today).2.2.signal_sent =
      (runPipeline state all_alerts live_only dry_run send_ok now_iso
        cooldown_cutoff gc_cutoff today).2.1) := by
  refine ⟨?_, ?_, ?_, ?_, ?_⟩
  · intro hsig a ha
    simp only [runPipeline] at hsig ⊢
    rw [if_pos hsig]
    refine alookup_filter_of_pred _ _ _ _ ?_ hnow
    rw [alookup_recordSends]
    rw [if_pos (List.mem_map.2 ⟨a, ha, rfl⟩)]
  · intro hsig k
    simp only [runPipeline] at hsig ⊢
    rw [if_neg (by rw [hsig]; exact Bool.false_ne_true)]
    exact alookup_filter_nodup state.sent_alerts _ k hnodup
  · intro hd
    subst hd
    simp [runPipeline]
  · rfl
  · rfl

/-- C9: state-file invariants after every run.  (1) Every entry of the
persisted cooldown map has a timestamp strictly above the 72-hour GC
cutoff; (2) hence any entry strictly older than the cutoff — including a
synthetically inserted one — is absent afterwards; (3) the persisted
history holds at most 200 entries and (4) begins with the new run's
summary. -/
theorem state_gc_and_history (state : WState) (all_alerts : List Alert)
    (live_only dry_run send_ok : Bool)
    (now_iso cooldown_cutoff gc_cutoff today : String) :
    (∀ kv ∈ (runPipeline state all_alerts live_only dry_run send_ok now_iso
        cooldown_cutoff gc_cutoff today).1.sent_alerts,
      pyStrLt gc_cutoff kv.2 = true) ∧
    (∀ k v, pyStrLt v gc_cutoff = true →
      (k, v) ∉ (runPipeline state all_alerts live_only dry_run send_ok now_iso
        cooldown_cutoff gc_cutoff today).1.sent_alerts) ∧
    ((runPipeline state all_alerts live_only dry_run send_ok now_iso
        cooldown_cutoff gc_cutoff today).1.history.length ≤ 200) ∧
    ((runPipeline state all_alerts live_only dry_run send_ok now_iso
        cooldown_cutoff gc_cutoff today).1.history.head? =
      some { ts := now_iso, mode := if live_only then "live" else "full",
             counts := tierCountList
               (filter_cooldown all_alerts state.sent_alerts cooldown_cutoff),
             signal := (runPipeline state all_alerts live_only dry_run send_ok
               now_iso cooldown_cutoff gc_cutoff today).2.1 }) := by
  refine ⟨?_, ?_, ?_, rfl⟩
  · intro kv hkv
    simp only [runPipeline] at hkv
    exact (List.mem_filter.1 hkv).2
  · intro k v hv hmem
    simp only [runPipeline] at hmem
    have := (List.mem_filter.1 hmem).2
    rw [pyStrLt_asymm v gc_cutoff hv] at this
    exact Bool.false_ne_true this
  · simp only [runPipeline]
    rw [List.length_take]
    exact Nat.min_le_left _ _

/-- The alert and prior state used by the delivery witness. -/
def wAlert : Alert :=
  { tier := "high", category := "device_offline",
    title := "Offline: NAS (192.168.1.5)",
    detail := "server device not responding to ping", host := "192.168.1.5" }

def wState : WState :=
  { sent_alerts := [("old|key|x", "2025-01-01T00:00:00")], history := [],
    last_run := "", last_mode := "" }

/-- Witness for `send_timestamp_iff_delivery` on a concrete run: a
successful send records the actionable key at `NOW_ISO`; a dry run never
sends; and after a failed delivery no key carries a new timestamp. -/
theorem send_timestamp_iff_delivery_witness :
    (alookup (runPipeline wState [wAlert] false false true "2025-03-10T05:00:00"
        "2025-03-09T05:00:00" "2025-03-07T05:00:00" "20250310").1.sent_alerts
      (alertKey wAlert) = some "2025-03-10T05:00:00") ∧
    ((runPipeline wState [wAlert] false true true "2025-03-10T05:00:00"
        "2025-03-09T05:00:00" "2025-03-07T05:00:00" "20250310").2.1 = false) ∧
    (alookup (runPipeline wState [wAlert] false false false "2025-03-10T05:00:00"
        "2025-03-09T05:00:00" "2025-03-07T05:00:00" "20250310").1.sent_alerts
        "old|key|x" = none ∨
      alookup (runPipeline wState [wAlert] false false false "2025-03-10T05:00:00"
        "2025-03-09T05:00:00" "2025-03-07T05:00:00" "20250310").1.sent_alerts
        "old|key|x" = alookup wState.sent_alerts "old|key|x") :=
  ⟨(send_timestamp_iff_delivery wState [wAlert] false false true
      "2025-03-10T05:00:00" "2025-03-09T05:00:00" "2025-03-07T05:00:00" "20250310"
      (by decide) (by decide)).1 (by decide) wAlert (by decide),
   (send_timestamp_iff_delivery wState [wAlert] false true true
      "2025-03-10T05:00:00" "2025-03-09T05:00:00" "2025-03-07T05:00:00" "20250310"
      (by decide) (by decide)).2.2.1 rfl,
   (send_timestamp_iff_delivery wState [wAlert] false false false
      "2025-03-10T05:00:00" "2025-03-09T05:00:00" "2025-03-07T05:00:00" "20250310"
      (by decide) (by decide)).2.1 (by decide) "old|key|x"⟩

/-- A prior state carrying a synthetically inserted stale cooldown
entry, far older than the 72-hour GC cutoff. -/
def wOldState : WState :=
  { sent_alerts := [("stale|key|y", "2024-01-01T00:00:00")], history := [],
    last_run := "", last_mode := "" }

/-- Witness for `state_gc_and_history`: the synthetic stale entry is
absent from the persisted state after a concrete run, and the history
stays within its cap with the new summary in front. -/
theorem state_gc_and_history_witness :
    (("stale|key|y", "2024-01-01T00:00:00") ∉
      (runPipeline wOldState [] false false true "2025-03-10T05:00:00"
        "2025-03-09T05:00:00" "2025-03-07T05:00:00" "20250310").1.sent_alerts) ∧
    ((runPipeline wOldState [] false false true "2025-03-10T05:00:00"
        "2025-03-09T05:00:00" "2025-03-07T05:00:00" "20250310").1.history.length
      ≤ 200) :=
  have h := state_gc_and_history wOldState [] false false true "2025-03-10T05:00:00"
    "2025-03-09T05:00:00" "2025-03-07T05:00:00" "20250310"
  ⟨h.2.1 "stale|key|y" "2024-01-01T00:00:00" (by decide), h.2.2.1⟩
